import Mathlib

/-!
Shallow embedding of the GeoCOCO core (window schema construction, window
offset generation, and the incrementally-versioned COCO dataset aggregate),
with theorems checking the natural-language specification against the code.

Sources embedded:
- `geococo/window_schema.py` (`WindowSchema`, pydantic v1 semantics)
- `geococo/utils.py` (`generate_window_offsets`, `window_factory`, `mask_label`)
- `geococo/coco_models.py` (`CocoDataset` and its operations)
- `geococo/coco_manager.py` (`load_dataset` / `save_dataset`)

Machine integers are modelled as `Int` (Python integers are unbounded, so no
overflow modelling is needed); fallible constructors return `Except`.
-/

/-- Python exception values observable from the embedded code.  `valueError`
carries the message; `keyError` carries the missing dictionary key;
`validationError` carries the names of the pydantic fields whose constraint
failed (pydantic v1 collects one error entry per failing field, in field
declaration order). -/
inductive PyError where
  | valueError : String → PyError
  | keyError : String → PyError
  | validationError : List String → PyError
  | ioError : String → PyError
  deriving DecidableEq, Repr

/-- True exactly on errors of Python class `IOError`/`OSError`.  The embedded
code never raises one, but the spec mentions them, so the taxonomy keeps the
distinction: a `valueError` is not an `ioError` (in Python, `ValueError` is
not a subclass of `OSError`). -/
def PyError.is_io_error : PyError → Bool
  | .ioError _ => true
  | _ => false

/-- The validated `WindowSchema` pydantic model of `geococo/window_schema.py`:
window size, overlap and the derived step, per axis, all in pixels. -/
structure WindowSchema where
  width_window : Int
  height_window : Int
  width_overlap : Int
  height_overlap : Int
  width_step : Int
  height_step : Int
  deriving DecidableEq, Repr

/-- The raw keyword-argument dictionary passed to the `WindowSchema`
constructor: a key that the caller omitted is `none` (pydantic pre-validators
see the raw input dict, before field defaults are applied). -/
structure RawSchemaInput where
  width_window : Option Int
  height_window : Option Int
  width_overlap : Option Int
  height_overlap : Option Int
  deriving DecidableEq, Repr

/-- The `_calculate_steps` pre root validator (`window_schema.py` lines 13-17):
it reads `width_window`, `width_overlap`, `height_window`, `height_overlap`
from the raw input dict, in that evaluation order, and a missing key raises
`KeyError` (field defaults have not been applied at this point).  On success it
returns the raw values together with the two computed steps
`window - overlap * 2`. -/
def calculate_steps (v : RawSchemaInput) :
    Except PyError (Int × Int × Int × Int × Int × Int) :=
  match v.width_window with
  | none => .error (.keyError "width_window")
  | some ww =>
    match v.width_overlap with
    | none => .error (.keyError "width_overlap")
    | some ow =>
      match v.height_window with
      | none => .error (.keyError "height_window")
      | some hh =>
        match v.height_overlap with
        | none => .error (.keyError "height_overlap")
        | some oh => .ok (ww, hh, ow, oh, ww - ow * 2, hh - oh * 2)

/-- Pydantic field validation for `WindowSchema` (`window_schema.py` lines
6-11): `width_window > 0`, `height_window > 0`, `width_overlap ≥ 0`,
`height_overlap ≥ 0`, `width_step > 0`, `height_step > 0`; all failing fields
are collected, in field declaration order, into one validation error. -/
def validate_fields (ww hh ow oh ws hs : Int) : Except PyError WindowSchema :=
  let errs : List String :=
    (if ww ≤ 0 then ["width_window"] else []) ++
    (if hh ≤ 0 then ["height_window"] else []) ++
    (if ow < 0 then ["width_overlap"] else []) ++
    (if oh < 0 then ["height_overlap"] else []) ++
    (if ws ≤ 0 then ["width_step"] else []) ++
    (if hs ≤ 0 then ["height_step"] else [])
  if errs.isEmpty then .ok ⟨ww, hh, ow, oh, ws, hs⟩
  else .error (.validationError errs)

/-- Construction of a `WindowSchema` from raw keyword arguments: the pre root
validator `_calculate_steps` runs first on the raw dict, then pydantic field
validation runs on the resulting values. -/
def mkWindowSchema (v : RawSchemaInput) : Except PyError WindowSchema :=
  match calculate_steps v with
  | .error e => .error e
  | .ok (ww, hh, ow, oh, ws, hs) => validate_fields ww hh ow oh ws hs

/-! ### Lexicographic string order (the order `np.unique` sorts by)

`np.unique` on an array of strings returns the distinct values in ascending
lexicographic order.  Lean's built-in `String` order is implemented by
well-founded recursion, which concrete evaluation cannot unfold, so we use an
equivalent structural comparator on the underlying character lists (characters
are compared by code point, as numpy does). -/

/-- Lexicographic comparison of character lists, `true` iff `as ≤ bs`. -/
def lexLe : List Char → List Char → Bool
  | [], _ => true
  | _ :: _, [] => false
  | a :: as, b :: bs => if a < b then true else if b < a then false else lexLe as bs

/-- Lexicographic comparison of strings, `true` iff `a ≤ b`. -/
def strLe (a b : String) : Bool := lexLe a.data b.data

/-- `strLe` as a binary relation, for use with `List.insertionSort`. -/
def strLeR (a b : String) : Prop := strLe a b = true

instance : DecidableRel strLeR := fun a b => Bool.decEq (strLe a b) true

/-- `np.unique` on an array of strings: the distinct values, in ascending
lexicographic order. -/
def npUniqueStr (l : List String) : List String :=
  List.insertionSort strLeR l.dedup

/-! ### `np.arange` and window offset generation (`geococo/utils.py`) -/

/-- Number of elements of `np.arange(start, stop, step)` for a positive
`step`: `⌈(stop - start) / step⌉`, clamped at `0`. -/
def arangeLen (start stop step : Int) : Nat :=
  if stop ≤ start then 0 else (stop - start - 1).toNat / step.toNat + 1

/-- `np.arange(start, stop, step)` for a positive `step`: the values
`start + step * i` for `0 ≤ i < arangeLen start stop step`. -/
def npArange (start stop step : Int) : List Int :=
  (List.range (arangeLen start stop step)).map
    (fun (i : Nat) => start + step * (i : Int))

/-- A rasterio `Window`: an integer pixel rectangle. -/
structure Window where
  col_off : Int
  row_off : Int
  width : Int
  height : Int
  deriving DecidableEq, Repr

/-- The local `col_range` array of `generate_window_offsets` (`utils.py`
lines 122-126): `np.arange(np.max((0, window.col_off - schema.width_overlap)),
window.width + window.col_off - schema.width_overlap, schema.width_step)`. -/
def colRange (window : Window) (schema : WindowSchema) : List Int :=
  npArange (max 0 (window.col_off - schema.width_overlap))
    (window.width + window.col_off - schema.width_overlap)
    schema.width_step

/-- The local `row_range` array of `generate_window_offsets` (`utils.py`
lines 127-131), symmetric to `colRange` for the vertical axis. -/
def rowRange (window : Window) (schema : WindowSchema) : List Int :=
  npArange (max 0 (window.row_off - schema.height_overlap))
    (window.height + window.row_off - schema.height_overlap)
    schema.height_step

/-- `generate_window_offsets` (`utils.py` lines 114-136).  The code builds
`np.array(np.meshgrid(col_range, row_range))`, of shape
`(2, len(row_range), len(col_range))` with `arr[0, i, j] = col_range[j]` and
`arr[1, i, j] = row_range[i]`, transposes it to shape
`(len(col_range), len(row_range), 2)`, and reshapes row-major to `(-1, 2)`:
the resulting pair list is `(col_range[j], row_range[i])` with `j` outermost
and `i` innermost, i.e. for each column offset all row offsets in turn. -/
def generate_window_offsets (window : Window) (schema : WindowSchema) :
    List (Int × Int) :=
  (colRange window schema).flatMap
    (fun c => (rowRange window schema).map (fun r => (c, r)))

/-- `window_factory` (`utils.py` lines 139-165) with `boundless=True` (the
only mode `labels_to_dataset` uses): one child window per generated offset
pair, with the schema's window size. -/
def window_factory (parent_window : Window) (schema : WindowSchema) :
    List Window :=
  (generate_window_offsets parent_window schema).map
    (fun p => ⟨p.1, p.2, schema.width_window, schema.height_window⟩)

/-! ### The COCO dataset aggregate (`geococo/coco_models.py`) -/

/-- A three-component semantic version.  `coco_models.py` stores it as a
string and re-parses it on every bump; the parse/print round trip is the
identity on well-formed versions, so it is modelled structurally. -/
structure Version where
  major : Nat
  minor : Nat
  patch : Nat
  deriving DecidableEq, Repr

/-- `semver` `Version.bump_patch`: increment the patch component. -/
def Version.bump_patch (v : Version) : Version := ⟨v.major, v.minor, v.patch + 1⟩

/-- `semver` `Version.bump_minor`: increment the minor component and reset
patch to zero. -/
def Version.bump_minor (v : Version) : Version := ⟨v.major, v.minor + 1, 0⟩

/-- `semver` `Version.bump_major`: increment the major component and reset
minor and patch to zero. -/
def Version.bump_major (v : Version) : Version := ⟨v.major + 1, 0, 0⟩

/-- A `pathlib.Path` as the embedded code observes it: its parent directory
(`.parent`, compared by `verify_new_output_dir`) and its final component.
Paths are compared by equality of both parts, like `pathlib.Path` equality. -/
structure FsPath where
  dir : String
  base : String
  deriving DecidableEq, Repr

/-- The `Info` metadata block.  `version` is the semantic version;
`date_created` is modelled as an opaque timestamp.  All fields are carried
verbatim by serialization. -/
structure Info where
  version : Version
  year : Option Int
  description : Option String
  contributor : Option String
  date_created : Option Int
  deriving DecidableEq, Repr

/-- A COCO `Image` entry (`coco_models.py` lines 158-163). -/
structure Image where
  id : Int
  width : Int
  height : Int
  file_name : FsPath
  source_id : Int
  deriving DecidableEq, Repr

/-- A COCO run-length-encoded segmentation (`RleDict`): shape plus the
opaque count bytes. -/
structure RleDict where
  size : List Int
  counts : List Nat
  deriving DecidableEq, Repr

/-- A COCO `Annotation` entry (`coco_models.py` lines 166-173).  `area` and
`bbox` are numeric payloads carried verbatim by every operation modelled
here, so they are embedded as integers. -/
structure Annotation where
  id : Int
  image_id : Int
  category_id : Int
  segmentation : RleDict
  area : Int
  bbox : List Int
  iscrowd : Int
  deriving DecidableEq, Repr

/-- A COCO `Category` entry (`coco_models.py` lines 176-179). -/
structure Category where
  id : Int
  name : String
  supercategory : String
  deriving DecidableEq, Repr

/-- A `Source` entry: one per distinct ingested raster
(`coco_models.py` lines 187-189). -/
structure Source where
  id : Int
  file_name : FsPath
  deriving DecidableEq, Repr

/-- The `CocoDataset` pydantic model (`coco_models.py` lines 14-29): the four
collections plus the three counter fields.  The counters are declared with
`Field(exclude=True)`, so they are not serialized. -/
structure CocoDataset where
  info : Info
  images : List Image
  annotations : List Annotation
  categories : List Category
  sources : List Source
  next_image_id : Int
  next_annotation_id : Int
  next_source_id : Int
  deriving DecidableEq, Repr

/-- Construction of a `CocoDataset`, which always runs the `_set_ids` root
validator (`coco_models.py` lines 24-29): `next_image_id = len(images) + 1`,
`next_annotation_id = len(annotations) + 1`, `next_source_id = len(sources)`. -/
def CocoDataset.validated (info : Info) (images : List Image)
    (annotations : List Annotation) (categories : List Category)
    (sources : List Source) : CocoDataset :=
  { info := info, images := images, annotations := annotations,
    categories := categories, sources := sources,
    next_image_id := (images.length : Int) + 1,
    next_annotation_id := (annotations.length : Int) + 1,
    next_source_id := (sources.length : Int) }

/-- The three bump tiers accepted by `CocoDataset.bump_version`; the code
takes them as strings and raises `ValueError` for anything else, so the
in-range behaviour is modelled with a closed enumeration. -/
inductive BumpMethod where
  | patch
  | minor
  | major
  deriving DecidableEq, Repr

/-- `CocoDataset.bump_version` (`coco_models.py` lines 129-142): parse the
current version, bump the requested tier, store the result. -/
def CocoDataset.bump_version (d : CocoDataset) (bump_method : BumpMethod) :
    CocoDataset :=
  let version :=
    match bump_method with
    | .patch => d.info.version.bump_patch
    | .minor => d.info.version.bump_minor
    | .major => d.info.version.bump_major
  { d with info := { d.info with version := version } }

/-- `CocoDataset.add_annotation` (`coco_models.py` lines 31-33). -/
def CocoDataset.add_annotation (d : CocoDataset) ( annotation : Annotation) :
    CocoDataset :=
  { d with annotations := d.annotations ++ [ annotation],
           next_annotation_id := d.next_annotation_id + 1 }

/-- `CocoDataset.add_image` (`coco_models.py` lines 35-37). -/
def CocoDataset.add_image (d : CocoDataset) (image : Image) : CocoDataset :=
  { d with images := d.images ++ [image],
           next_image_id := d.next_image_id + 1 }

/-- `CocoDataset.add_source` (`coco_models.py` lines 39-50): if a source with
the same `file_name` exists, bump the patch version and point
`next_source_id` at it; otherwise append a new `Source` with
`id = len(sources) + 1`, bump the minor version, and point `next_source_id`
at the new id. -/
def CocoDataset.add_source (d : CocoDataset) (source_path : FsPath) :
    CocoDataset :=
  match d.sources.filter (fun ssrc => ssrc.file_name == source_path) with
  | [] =>
    let source : Source := ⟨(d.sources.length : Int) + 1, source_path⟩
    let d' := { d with sources := d.sources ++ [source] }
    let d'' := d'.bump_version .minor
    { d'' with next_source_id := source.id }
  | source :: _ =>
    let d' := d.bump_version .patch
    { d' with next_source_id := source.id }

/-- `CocoDataset.verify_new_output_dir` (`coco_models.py` lines 144-147):
bump the major version when `images_dir` is not the parent directory of any
existing image (the code takes `np.unique` of the parents first, which does
not change membership). -/
def CocoDataset.verify_new_output_dir (d : CocoDataset) (images_dir : String) :
    CocoDataset :=
  let output_dirs := d.images.map (fun image => image.file_name.dir)
  if images_dir ∈ output_dirs then d else d.bump_version .major

/-- `pandas` `.max()` over a list of ids followed by `np.nansum([max, 1])`
minus the one: the maximum of the list, or `0` (the NaN of an empty maximum,
which `nansum` then treats as absent) when the list is empty. -/
def maxOr0 : List Int → Int
  | [] => 0
  | x :: xs => xs.foldl max x

/-- The names-only path of `CocoDataset.add_categories` (`coco_models.py`
lines 52-127 with `category_ids=None`, `super_names=None`), the path claimed
by the spec's id-from-name contract.  Following the code: `uid_array` is
`np.unique(category_names)` (sorted distinct values); `new_members` are the
proposed names absent from the existing table (`~member_mask`), kept in that
sorted order; if none are new the call returns unchanged; otherwise `max_id`
is the maximum `id` over existing rows whose `name` is among the proposed
names that were already members (`pandas_mask`), `np.nansum([max_id, 1])`
turns an empty maximum (NaN) into `1`, ids are
`np.arange(start, start + len(new_members))`, supercategories default to
`"1"`, and the zipped new `Category` rows are appended. -/
def add_categories_names (cats : List Category) (category_names : List String) :
    List Category :=
  let existing := cats.map (fun c => c.name)
  let uid := npUniqueStr category_names
  let new_members := uid.filter (fun n => !existing.contains n)
  if new_members.isEmpty then cats
  else
    let members := uid.filter (fun n => existing.contains n)
    let matched_ids := (cats.filter (fun c => members.contains c.name)).map
      (fun c => c.id)
    let start : Int := maxOr0 matched_ids + 1
    let ids := npArange start (start + new_members.length) 1
    cats ++ (List.zip ids new_members).map
      (fun p => { id := p.1, name := p.2, supercategory := "1" })

/-! ### Serialization (`geococo/coco_manager.py`) -/

/-- The persisted JSON document: exactly the serialized fields of
`CocoDataset` — the three counter fields are declared `exclude=True` and are
not written by `dataset.json()`. -/
structure CocoJsonDoc where
  info : Info
  images : List Image
  annotations : List Annotation
  categories : List Category
  sources : List Source
  deriving DecidableEq, Repr

/-- `save_dataset` / `dataset.json()`: serialize the non-excluded fields. -/
def CocoDataset.json (d : CocoDataset) : CocoJsonDoc :=
  ⟨d.info, d.images, d.annotations, d.categories, d.sources⟩

/-- `load_dataset` (`coco_manager.py` lines 7-19): parse the document and
validate it, which re-derives the counters via `_set_ids`. -/
def load_dataset (doc : CocoJsonDoc) : CocoDataset :=
  CocoDataset.validated doc.info doc.images doc.annotations doc.categories
    doc.sources

/-! ### Per-tile label masking (`geococo/utils.py` lines 17-37) -/

/-- `np.all(mask, axis=0)` on the per-band boolean masks returned by
`rasterio.mask.mask(..., filled=False)`: a pixel of the result is `true` iff
it is masked in every band. -/
def npAllAxis0 (bands : List (List (List Bool))) : List (List Bool) :=
  match bands with
  | [] => []
  | b :: bs =>
    bs.foldl
      (fun acc band =>
        List.zipWith (fun r1 r2 => List.zipWith (fun x y => x && y) r1 r2) acc
          band)
      b

/-- `np.invert` on a 2-D boolean array. -/
def npInvert (m : List (List Bool)) : List (List Bool) :=
  m.map (fun row => row.map (fun b => !b))

/-- `mask_label` (`utils.py` lines 17-37).  `closed` is the reader's
`.closed` flag; `mask_bands` is the mask attribute of the masked array that
`rasterio.mask.mask(dataset, shapes=[label], all_touched=True, filled=False)`
returns, one 2-D boolean array per band, `true` where the pixel is outside
the label (rasterio fills the mask entirely with `true` when the label does
not intersect the tile, emitting only a warning).  The code first raises
`ValueError("Attempted mask with a closed DatasetReader")` when the reader is
closed, and otherwise collapses the bands with `np.all(..., axis=0)` and
inverts the result. -/
def mask_label (closed : Bool) (mask_bands : List (List (List Bool))) :
    Except PyError (List (List Bool)) :=
  if closed then
    .error (.valueError "Attempted mask with a closed DatasetReader")
  else
    .ok (npInvert (npAllAxis0 mask_bands))

/-- All pixels of every band of a rasterio mask stack are masked. -/
def allTrueBands (bands : List (List (List Bool))) : Bool :=
  bands.all (fun band => band.all (fun row => row.all (fun b => b)))

/-- All entries of a 2-D boolean array are `false`. -/
def allFalseMask (m : List (List Bool)) : Bool :=
  m.all (fun row => row.all (fun b => !b))

/-- All entries of a 2-D boolean array are `true`. -/
def allTrueMask (m : List (List Bool)) : Bool :=
  m.all (fun row => row.all (fun b => b))

/-! ### Definitions written from the spec's words, for refinement comparison -/

/-- Modelled from the spec: the offset emission order the spec asserts —
"ordered row-major (all columns for a given row before advancing the row)" —
over the same two arithmetic offset sequences as the code. -/
def specRowMajorOffsets (window : Window) (schema : WindowSchema) :
    List (Int × Int) :=
  (rowRange window schema).flatMap
    (fun r => (colRange window schema).map (fun c => (c, r)))

/-- The new-name batch of a names-only `add_categories` call as the amended
claim describes it: the proposed names, deduplicated, restricted to those
absent from the existing table, in ascending lexicographic order. -/
def specNewNames (cats : List Category) (category_names : List String) :
    List String :=
  List.insertionSort strLeR
    (category_names.dedup.filter (fun n => !(cats.map (fun c => c.name)).contains n))

/-- The first id assigned to the new names of a names-only `add_categories`
call as the amended claim describes it: one plus the maximum id among
existing categories whose name occurs anywhere in the proposed batch, or `1`
when no proposed name already exists. -/
def specStartId (cats : List Category) (category_names : List String) : Int :=
  maxOr0 ((cats.filter (fun c => category_names.contains c.name)).map
    (fun c => c.id)) + 1

/-! ### Order-theoretic facts about the string comparator -/

theorem lexLe_total : ∀ as bs : List Char, lexLe as bs = true ∨ lexLe bs as = true
  | [], _ => by left; rfl
  | _ :: _, [] => by right; rfl
  | a :: as, b :: bs => by
    rcases lt_trichotomy a b with h | h | h
    · left; simp [lexLe, h]
    · subst h
      rcases lexLe_total as bs with ih | ih
      · left; simp [lexLe, ih]
      · right; simp [lexLe, ih]
    · right; simp [lexLe, h]

theorem lexLe_antisymm : ∀ as bs : List Char,
    lexLe as bs = true → lexLe bs as = true → as = bs
  | [], [] => fun _ _ => rfl
  | [], _ :: _ => fun _ h => by simp [lexLe] at h
  | _ :: _, [] => fun h _ => by simp [lexLe] at h
  | a :: as, b :: bs => fun h1 h2 => by
    rcases lt_trichotomy a b with h | h | h
    · simp [lexLe, h, not_lt.mpr (le_of_lt h), lt_asymm h] at h2
    · subst h
      simp only [lexLe, lt_irrefl, if_neg (lt_irrefl a), if_false] at h1 h2
      rw [lexLe_antisymm as bs h1 h2]
    · simp [lexLe, h, lt_asymm h] at h1

theorem lexLe_trans : ∀ as bs cs : List Char,
    lexLe as bs = true → lexLe bs cs = true → lexLe as cs = true
  | [], _, _ => fun _ _ => rfl
  | _ :: _, [], _ => fun h _ => by simp [lexLe] at h
  | _ :: _, _ :: _, [] => fun _ h => by simp [lexLe] at h
  | a :: as, b :: bs, c :: cs => fun h1 h2 => by
    rcases lt_trichotomy a b with hab | hab | hab
    · rcases lt_trichotomy b c with hbc | hbc | hbc
      · simp [lexLe, lt_trans hab hbc]
      · subst hbc; simp [lexLe, hab]
      · simp [lexLe, hbc, lt_asymm hbc] at h2
    · subst hab
      rcases lt_trichotomy a c with hac | hac | hac
      · simp [lexLe, hac]
      · subst hac
        simp only [lexLe, if_neg (lt_irrefl a), if_false] at h1 h2 ⊢
        exact lexLe_trans as bs cs h1 h2
      · simp [lexLe, hac, lt_asymm hac] at h2
    · simp [lexLe, hab, lt_asymm hab] at h1

theorem strLeR_total : IsTotal String strLeR :=
  ⟨fun a b => lexLe_total a.data b.data⟩

theorem strLeR_trans : IsTrans String strLeR :=
  ⟨fun a b c h1 h2 => lexLe_trans a.data b.data c.data h1 h2⟩

theorem strLeR_antisymm : IsAntisymm String strLeR :=
  ⟨fun a b h1 h2 => String.ext (lexLe_antisymm a.data b.data h1 h2)⟩

/-- Sorting commutes with filtering (filtering a sorted list keeps it
sorted, and both sides are permutations of `l.filter p`). -/
theorem sort_filter_comm (l : List String) (p : String → Bool) :
    (List.insertionSort strLeR l).filter p =
      List.insertionSort strLeR (l.filter p) := by
  haveI := strLeR_total
  haveI := strLeR_trans
  exact @List.eq_of_perm_of_sorted String strLeR strLeR_antisymm _ _
    (((List.perm_insertionSort strLeR l).filter p).trans
      (List.perm_insertionSort strLeR (l.filter p)).symm)
    ((List.sorted_insertionSort strLeR l).filter p)
    (List.sorted_insertionSort strLeR _)

/-! ### Arithmetic facts about `np.arange` -/

/-- Membership in `np.arange(start, stop, step)` for positive `step`: exactly
the values from `start` (inclusive) to `stop` (exclusive) that `start` reaches
in multiples of `step`. -/
theorem mem_npArange {start stop step c : Int} (hstep : 0 < step) :
    c ∈ npArange start stop step ↔
      start ≤ c ∧ c < stop ∧ step ∣ c - start := by
  unfold npArange arangeLen
  rw [List.mem_map]
  constructor
  · rintro ⟨i, hi, rfl⟩
    rw [List.mem_range] at hi
    by_cases hts : stop ≤ start
    · rw [if_pos hts] at hi; exact absurd hi (by omega)
    · rw [if_neg hts] at hi
      push_neg at hts
      have hi2 : i ≤ (stop - start - 1).toNat / step.toNat := by omega
      have h3 : step.toNat * i ≤ (stop - start - 1).toNat := by
        calc step.toNat * i
            ≤ step.toNat * ((stop - start - 1).toNat / step.toNat) :=
              Nat.mul_le_mul_left _ hi2
          _ = ((stop - start - 1).toNat / step.toNat) * step.toNat := by
              rw [Nat.mul_comm]
          _ ≤ (stop - start - 1).toNat := Nat.div_mul_le_self _ _
      have h4 : step * (i : Int) ≤ stop - start - 1 := by
        have h5 : ((step.toNat * i : Nat) : Int) ≤
            (((stop - start - 1).toNat : Nat) : Int) := Int.ofNat_le.mpr h3
        rw [Nat.cast_mul, Int.toNat_of_nonneg hstep.le,
          Int.toNat_of_nonneg (by omega : (0 : Int) ≤ stop - start - 1)] at h5
        exact h5
      have h6 : 0 ≤ step * (i : Int) :=
        mul_nonneg hstep.le (Int.ofNat_nonneg i)
      exact ⟨by omega, by omega, ⟨(i : Int), by ring⟩⟩
  · rintro ⟨h1, h2, m, hm⟩
    have hm0 : 0 ≤ m := by
      by_contra hneg
      push_neg at hneg
      have : step * m < step * 0 := by
        exact mul_lt_mul_of_pos_left hneg hstep
      rw [mul_zero] at this
      omega
    refine ⟨m.toNat, ?_, ?_⟩
    · rw [List.mem_range]
      have hts : ¬ stop ≤ start := by omega
      rw [if_neg hts]
      have h7 : m * step ≤ stop - start - 1 := by
        have : step * m ≤ stop - 1 - start := by omega
        linarith [this]
      have key : m.toNat * step.toNat ≤ (stop - start - 1).toNat := by
        have h8 : ((m.toNat * step.toNat : Nat) : Int) ≤
            (((stop - start - 1).toNat : Nat) : Int) := by
          rw [Nat.cast_mul, Int.toNat_of_nonneg hm0,
            Int.toNat_of_nonneg hstep.le,
            Int.toNat_of_nonneg (by omega : (0 : Int) ≤ stop - start - 1)]
          exact h7
        exact_mod_cast h8
      have h9 : m.toNat ≤ (stop - start - 1).toNat / step.toNat :=
        (Nat.le_div_iff_mul_le (by omega : 0 < step.toNat)).mpr key
      omega
    · rw [Int.toNat_of_nonneg hm0]; omega
  
/-- `np.arange(start, stop, step)` is the singleton `[start]` whenever the
interval is nonempty and no longer than one step. -/
theorem npArange_single {start stop step : Int} (h1 : start < stop)
    (h2 : stop - start ≤ step) : npArange start stop step = [start] := by
  have hstep : 0 < step := by omega
  unfold npArange arangeLen
  rw [if_neg (by omega : ¬ stop ≤ start)]
  rw [Nat.div_eq_of_lt (by omega : (stop - start - 1).toNat < step.toNat)]
  simp [List.range_succ]

/-! ### C1 — window schema construction and the derived step -/

/-- C1: for positive window sizes and non-negative overlaps, construction of
a `WindowSchema` succeeds exactly when `window > 2·overlap` in both axes, and
then the derived step is `window − 2·overlap` per axis; otherwise it fails
with a validation error whose failing-field list contains `width_step` iff
the horizontal axis is invalid and `height_step` iff the vertical axis is
invalid. -/
theorem windowSchema_step_construction (ww hh ow oh : Int)
    (hww : 0 < ww) (hhh : 0 < hh) (how : 0 ≤ ow) (hoh : 0 ≤ oh) :
    (2 * ow < ww ∧ 2 * oh < hh →
      mkWindowSchema ⟨some ww, some hh, some ow, some oh⟩ =
        Except.ok ⟨ww, hh, ow, oh, ww - ow * 2, hh - oh * 2⟩)
    ∧ (ww ≤ 2 * ow ∨ hh ≤ 2 * oh →
      ∃ errs, mkWindowSchema ⟨some ww, some hh, some ow, some oh⟩ =
          Except.error (PyError.validationError errs)
        ∧ ("width_step" ∈ errs ↔ ww ≤ 2 * ow)
        ∧ ("height_step" ∈ errs ↔ hh ≤ 2 * oh)
        ∧ errs ≠ []) := by
  have e1 : ¬ ww ≤ 0 := not_le.mpr hww
  have e2 : ¬ hh ≤ 0 := not_le.mpr hhh
  have e3 : ¬ ow < 0 := not_lt.mpr how
  have e4 : ¬ oh < 0 := not_lt.mpr hoh
  constructor
  · rintro ⟨h1, h2⟩
    have e5 : ¬ ww - ow * 2 ≤ 0 := by omega
    have e6 : ¬ hh - oh * 2 ≤ 0 := by omega
    simp [mkWindowSchema, calculate_steps, validate_fields, e1, e2, e3, e4, e5, e6]
  · intro h
    by_cases e5 : ww - ow * 2 ≤ 0 <;> by_cases e6 : hh - oh * 2 ≤ 0
    · refine ⟨["width_step", "height_step"], ?_, ?_, ?_, ?_⟩
      · simp [mkWindowSchema, calculate_steps, validate_fields, e1, e2, e3, e4,
          e5, e6]
      · exact iff_of_true (by decide) (by omega)
      · exact iff_of_true (by decide) (by omega)
      · decide
    · refine ⟨["width_step"], ?_, ?_, ?_, ?_⟩
      · simp [mkWindowSchema, calculate_steps, validate_fields, e1, e2, e3, e4,
          e5, e6]
      · exact iff_of_true (by decide) (by omega)
      · exact iff_of_false (by decide) (by omega)
      · decide
    · refine ⟨["height_step"], ?_, ?_, ?_, ?_⟩
      · simp [mkWindowSchema, calculate_steps, validate_fields, e1, e2, e3, e4,
          e5, e6]
      · exact iff_of_false (by decide) (by omega)
      · exact iff_of_true (by decide) (by omega)
      · decide
    · rcases h with h | h <;> omega

/-- Witness for C1 at `window = 100`, `overlap = 20` per axis: construction
succeeds with step `60`. -/
theorem windowSchema_step_construction_witness :
    mkWindowSchema ⟨some 100, some 100, some 20, some 20⟩ =
      Except.ok ⟨100, 100, 20, 20, 60, 60⟩ :=
  (windowSchema_step_construction 100 100 20 20 (by decide) (by decide)
    (by decide) (by decide)).1 ⟨by decide, by decide⟩

/-! ### C9 — omitted overlaps fail instead of defaulting to zero -/

/-- C9: constructing a `WindowSchema` with only the two window sizes fails
with a `KeyError` on `width_overlap` — the pre-validation step computation
reads the overlaps from the raw input before field defaults are applied — so
the overlaps are never defaulted to `0`. -/
theorem windowSchema_missing_overlaps_fail (ww hh : Int) :
    mkWindowSchema ⟨some ww, some hh, none, none⟩ =
      Except.error (PyError.keyError "width_overlap") := rfl

/-! ### C4 — the minor/patch/major bump sequence -/

/-- C4: from a fresh dataset at version 0.0.0 with no sources and no images,
registering source "a" gives 0.1.0, registering "a" again gives 0.1.1, and
verifying a previously unused output directory then gives 1.0.0. -/
theorem version_bump_sequence :
    (((CocoDataset.validated ⟨⟨0, 0, 0⟩, none, none, none, none⟩ [] [] [] []
        ).add_source ⟨"", "a"⟩).info.version = ⟨0, 1, 0⟩)
    ∧ ((((CocoDataset.validated ⟨⟨0, 0, 0⟩, none, none, none, none⟩ [] [] [] []
        ).add_source ⟨"", "a"⟩).add_source ⟨"", "a"⟩).info.version = ⟨0, 1, 1⟩)
    ∧ (((((CocoDataset.validated ⟨⟨0, 0, 0⟩, none, none, none, none⟩ [] [] [] []
        ).add_source ⟨"", "a"⟩).add_source ⟨"", "a"⟩).verify_new_output_dir
          "new_dir").info.version = ⟨1, 0, 0⟩) := by
  decide

/-! ### C10 — any directory is new to a dataset with no images -/

/-- C10: when the images collection is empty, `verify_new_output_dir` bumps
the major version whatever directory is passed. -/
theorem fresh_dataset_major_bump (d : CocoDataset) (images_dir : String)
    (h : d.images = []) :
    (d.verify_new_output_dir images_dir).info.version =
      d.info.version.bump_major := by
  unfold CocoDataset.verify_new_output_dir
  rw [h]
  simp [CocoDataset.bump_version]

/-- Witness for C10: an imageless dataset at version 2.3.4 jumps to 3.0.0 for
an arbitrary directory. -/
theorem fresh_dataset_major_bump_witness :
    ((CocoDataset.validated ⟨⟨2, 3, 4⟩, none, none, none, none⟩ [] [] [] []
      ).verify_new_output_dir "anywhere").info.version = ⟨3, 0, 0⟩ :=
  (fresh_dataset_major_bump _ "anywhere" rfl).trans (by decide)

/-! ### C5 — a new-source, new-directory run nets a single major bump -/

/-- C5: in a run that registers a new source and then verifies a new output
directory (the order `labels_to_dataset` uses), the final version is exactly
one major bump of the starting version — the same version the major bump
alone would produce — so the major bump strictly supersedes the minor bump
`add_source` applied and the two are not additive. -/
theorem major_bump_supersedes_minor (d : CocoDataset) (source_path : FsPath)
    (images_dir : String)
    (hsrc : ∀ s ∈ d.sources, s.file_name ≠ source_path)
    (hdir : ∀ img ∈ d.images, img.file_name.dir ≠ images_dir) :
    ((d.add_source source_path).verify_new_output_dir images_dir).info.version
        = d.info.version.bump_major
    ∧ ((d.add_source source_path).verify_new_output_dir images_dir).info.version
        = (d.verify_new_output_dir images_dir).info.version := by
  have hf : d.sources.filter (fun ssrc => ssrc.file_name == source_path) = [] := by
    rw [List.filter_eq_nil_iff]
    intro s hs
    simpa using hsrc s hs
  have himg : (d.add_source source_path).images = d.images := by
    unfold CocoDataset.add_source
    rw [hf]
    rfl
  have hver : (d.add_source source_path).info.version =
      d.info.version.bump_minor := by
    unfold CocoDataset.add_source
    rw [hf]
    rfl
  have hmem : images_dir ∉ (d.images.map (fun image => image.file_name.dir)) := by
    intro hmem'
    rcases List.mem_map.mp hmem' with ⟨img, hin, heq⟩
    exact hdir img hin heq
  have h1 : ((d.add_source source_path).verify_new_output_dir
        images_dir).info.version
      = ((d.add_source source_path).bump_version .major).info.version := by
    simp only [CocoDataset.verify_new_output_dir]
    rw [himg, if_neg hmem]
  have h2 : ((d.add_source source_path).bump_version .major).info.version
      = d.info.version.bump_major := by
    show ((d.add_source source_path).info.version).bump_major =
      d.info.version.bump_major
    rw [hver]
    rfl
  have h3 : (d.verify_new_output_dir images_dir).info.version =
      d.info.version.bump_major := by
    simp only [CocoDataset.verify_new_output_dir]
    rw [if_neg hmem]
    rfl
  exact ⟨h1.trans h2, (h1.trans h2).trans h3.symm⟩

/-- Witness for C5: a dataset at 1.2.3 with one source "b" and one image in
directory "old"; registering new source "a" and verifying new directory
"new" lands on 2.0.0, a single major bump. -/
theorem major_bump_supersedes_minor_witness :
    (((CocoDataset.validated ⟨⟨1, 2, 3⟩, none, none, none, none⟩
          [⟨1, 5, 5, ⟨"old", "1.jpg"⟩, 1⟩] [] [] [⟨1, ⟨"", "b"⟩⟩]
        ).add_source ⟨"", "a"⟩).verify_new_output_dir "new").info.version =
      ⟨2, 0, 0⟩ :=
  ((major_bump_supersedes_minor _ _ _ (by decide) (by decide)).1).trans
    (by decide)

/-! ### C2 — the offset grid is a Cartesian product, but column-major -/

/-- C2 counterexample: at a parent window of extent 10×10 at offset (0, 0)
and a valid schema with window 6, overlap 1 (step 4), the generator emits all
row offsets for column offset 0 before any other column offset appears —
column-major — whereas the claimed row-major order would emit all column
offsets for row offset 0 first.  The two orders disagree. -/
theorem offsets_not_row_major :
    generate_window_offsets ⟨0, 0, 10, 10⟩ ⟨6, 6, 1, 1, 4, 4⟩ ≠
        specRowMajorOffsets ⟨0, 0, 10, 10⟩ ⟨6, 6, 1, 1, 4, 4⟩
    ∧ generate_window_offsets ⟨0, 0, 10, 10⟩ ⟨6, 6, 1, 1, 4, 4⟩ =
        [(0, 0), (0, 4), (0, 8), (4, 0), (4, 4), (4, 8), (8, 0), (8, 4), (8, 8)]
    ∧ specRowMajorOffsets ⟨0, 0, 10, 10⟩ ⟨6, 6, 1, 1, 4, 4⟩ =
        [(0, 0), (4, 0), (8, 0), (0, 4), (4, 4), (8, 4), (0, 8), (4, 8), (8, 8)] := by
  decide

/-- C2 (amended): for every parent window and valid schema the generated
offsets are exactly the Cartesian product of the column sequence — from
`max(0, parent.col_off − overlap_w)` up to (exclusive)
`parent.width + parent.col_off − overlap_w` stepping by `step_w` — with the
symmetrically defined row sequence, emitted in column-major order: all row
offsets for a given column offset are produced before the column offset
advances. -/
theorem offsets_cartesian_product (window : Window) (schema : WindowSchema)
    (hsw : 0 < schema.width_step) (hsh : 0 < schema.height_step) :
    generate_window_offsets window schema =
        (colRange window schema).product (rowRange window schema)
    ∧ (∀ c r, (c, r) ∈ generate_window_offsets window schema ↔
        c ∈ colRange window schema ∧ r ∈ rowRange window schema)
    ∧ (∀ c, c ∈ colRange window schema ↔
        max 0 (window.col_off - schema.width_overlap) ≤ c ∧
        c < window.width + window.col_off - schema.width_overlap ∧
        schema.width_step ∣
          (c - max 0 (window.col_off - schema.width_overlap)))
    ∧ (∀ r, r ∈ rowRange window schema ↔
        max 0 (window.row_off - schema.height_overlap) ≤ r ∧
        r < window.height + window.row_off - schema.height_overlap ∧
        schema.height_step ∣
          (r - max 0 (window.row_off - schema.height_overlap))) := by
  refine ⟨rfl, ?_, ?_, ?_⟩
  · intro c r
    exact List.mem_product
  · intro c
    exact mem_npArange hsw
  · intro r
    exact mem_npArange hsh

/-- Witness for C2 at a concrete window and schema. -/
theorem offsets_cartesian_product_witness :
    generate_window_offsets ⟨2, 3, 7, 5⟩ ⟨4, 4, 1, 1, 2, 2⟩ =
      (colRange ⟨2, 3, 7, 5⟩ ⟨4, 4, 1, 1, 2, 2⟩).product
        (rowRange ⟨2, 3, 7, 5⟩ ⟨4, 4, 1, 1, 2, 2⟩) :=
  (offsets_cartesian_product ⟨2, 3, 7, 5⟩ ⟨4, 4, 1, 1, 2, 2⟩ (by decide)
    (by decide)).1

/-! ### C3 — when one tile covers an axis -/

/-- C3 counterexample: a valid schema with window 10 and overlap 2 (step 6)
over a parent of width 10 at offset 0 satisfies the claim's premise
`window ≥ parent extent`, yet two column offsets are generated, not one. -/
theorem window_ge_extent_not_single_offset :
    (WindowSchema.mk 10 10 2 2 6 6).width_window ≥ (Window.mk 0 0 10 10).width
    ∧ colRange ⟨0, 0, 10, 10⟩ ⟨10, 10, 2, 2, 6, 6⟩ = [0, 6]
    ∧ (colRange ⟨0, 0, 10, 10⟩ ⟨10, 10, 2, 2, 6, 6⟩).length ≠ 1 := by
  decide

/-- C3 (amended): when the axis step (`window − 2·overlap`) is at least the
parent extent along an axis and that axis's offset range is nonempty, exactly
one offset — the clamped start — is produced along that axis, independently
of the other axis; and when this holds in both axes the generator yields the
single covering offset pair. -/
theorem single_offset_when_step_covers (window : Window)
    (schema : WindowSchema) :
    (max 0 (window.col_off - schema.width_overlap) <
          window.width + window.col_off - schema.width_overlap →
        window.width ≤ schema.width_step →
        colRange window schema =
          [max 0 (window.col_off - schema.width_overlap)])
    ∧ (max 0 (window.row_off - schema.height_overlap) <
          window.height + window.row_off - schema.height_overlap →
        window.height ≤ schema.height_step →
        rowRange window schema =
          [max 0 (window.row_off - schema.height_overlap)])
    ∧ (max 0 (window.col_off - schema.width_overlap) <
          window.width + window.col_off - schema.width_overlap →
        window.width ≤ schema.width_step →
        max 0 (window.row_off - schema.height_overlap) <
          window.height + window.row_off - schema.height_overlap →
        window.height ≤ schema.height_step →
        generate_window_offsets window schema =
          [(max 0 (window.col_off - schema.width_overlap),
            max 0 (window.row_off - schema.height_overlap))]) := by
  have hcol : max 0 (window.col_off - schema.width_overlap) <
        window.width + window.col_off - schema.width_overlap →
      window.width ≤ schema.width_step →
      colRange window schema =
        [max 0 (window.col_off - schema.width_overlap)] := by
    intro hc hcw
    unfold colRange
    exact npArange_single hc (by omega)
  have hrow : max 0 (window.row_off - schema.height_overlap) <
        window.height + window.row_off - schema.height_overlap →
      window.height ≤ schema.height_step →
      rowRange window schema =
        [max 0 (window.row_off - schema.height_overlap)] := by
    intro hr hrh
    unfold rowRange
    exact npArange_single hr (by omega)
  refine ⟨hcol, hrow, ?_⟩
  intro hc hcw hr hrh
  unfold generate_window_offsets
  rw [hcol hc hcw, hrow hr hrh]
  rfl

/-- Witness for C3.  First, a mixed case: parent extent 4×100 with schema
window 10, overlap 1, step 8 — the width axis is covered by one offset
while the height axis is tiled many times, so the per-axis conclusion is
exercised with the other axis uncovered.  Second, both axes covered on a
4×4 parent: a single covering offset pair. -/
theorem single_offset_when_step_covers_witness :
    colRange ⟨0, 0, 4, 100⟩ ⟨10, 10, 1, 1, 8, 8⟩ = [0]
    ∧ generate_window_offsets ⟨0, 0, 4, 4⟩ ⟨10, 10, 1, 1, 8, 8⟩ = [(0, 0)] :=
  ⟨((single_offset_when_step_covers ⟨0, 0, 4, 100⟩ ⟨10, 10, 1, 1, 8, 8⟩).1
      (by decide) (by decide)).trans (by decide),
    ((single_offset_when_step_covers ⟨0, 0, 4, 4⟩ ⟨10, 10, 1, 1, 8, 8⟩).2.2
      (by decide) (by decide) (by decide) (by decide)).trans (by decide)⟩

/-! ### C7 — serialization round trip -/

/-- C7 counterexample: a reachable populated aggregate (sources "a", "b"
registered, then "a" re-registered, plus one image) has `next_source_id = 1`,
but the round trip re-derives `next_source_id = len(sources) = 2`, so the
loaded aggregate is not equal to the original in every field. -/
theorem roundtrip_not_identity :
    (load_dataset (CocoDataset.json
      (CocoDataset.add_image
        (CocoDataset.add_source
          (CocoDataset.add_source
            (CocoDataset.add_source
              (CocoDataset.validated ⟨⟨0, 0, 0⟩, none, none, none, none⟩
                [] [] [] [])
              ⟨"", "a"⟩)
            ⟨"", "b"⟩)
          ⟨"", "a"⟩)
        ⟨1, 5, 5, ⟨"out", "1_0_0_5_5.jpg"⟩, 1⟩))).next_source_id = 2
    ∧ (CocoDataset.add_image
        (CocoDataset.add_source
          (CocoDataset.add_source
            (CocoDataset.add_source
              (CocoDataset.validated ⟨⟨0, 0, 0⟩, none, none, none, none⟩
                [] [] [] [])
              ⟨"", "a"⟩)
            ⟨"", "b"⟩)
          ⟨"", "a"⟩)
        ⟨1, 5, 5, ⟨"out", "1_0_0_5_5.jpg"⟩, 1⟩).next_source_id = 1
    ∧ load_dataset (CocoDataset.json
      (CocoDataset.add_image
        (CocoDataset.add_source
          (CocoDataset.add_source
            (CocoDataset.add_source
              (CocoDataset.validated ⟨⟨0, 0, 0⟩, none, none, none, none⟩
                [] [] [] [])
              ⟨"", "a"⟩)
            ⟨"", "b"⟩)
          ⟨"", "a"⟩)
        ⟨1, 5, 5, ⟨"out", "1_0_0_5_5.jpg"⟩, 1⟩)) ≠
      (CocoDataset.add_image
        (CocoDataset.add_source
          (CocoDataset.add_source
            (CocoDataset.add_source
              (CocoDataset.validated ⟨⟨0, 0, 0⟩, none, none, none, none⟩
                [] [] [] [])
              ⟨"", "a"⟩)
            ⟨"", "b"⟩)
          ⟨"", "a"⟩)
        ⟨1, 5, 5, ⟨"out", "1_0_0_5_5.jpg"⟩, 1⟩) := by
  decide

/-- C7 (amended): serializing and deserializing reproduces every serialized
field (info, images, annotations, categories, sources) exactly, and derives
the counters on load as `len(images)+1`, `len(annotations)+1` and
`len(sources)`; the round trip is the identity precisely on aggregates whose
counters already have those derived values (always true of the image and
annotation counters in reachable states, but not of `next_source_id` after a
re-registration, as the counterexample shows). -/
theorem roundtrip_preserves_serialized_fields (d : CocoDataset) :
    (load_dataset d.json).info = d.info
    ∧ (load_dataset d.json).images = d.images
    ∧ (load_dataset d.json).annotations = d.annotations
    ∧ (load_dataset d.json).categories = d.categories
    ∧ (load_dataset d.json).sources = d.sources
    ∧ (load_dataset d.json).next_image_id = (d.images.length : Int) + 1
    ∧ (load_dataset d.json).next_annotation_id =
        (d.annotations.length : Int) + 1
    ∧ (load_dataset d.json).next_source_id = (d.sources.length : Int)
    ∧ (d.next_image_id = (d.images.length : Int) + 1 →
        d.next_annotation_id = (d.annotations.length : Int) + 1 →
        d.next_source_id = (d.sources.length : Int) →
        load_dataset d.json = d) := by
  refine ⟨rfl, rfl, rfl, rfl, rfl, rfl, rfl, rfl, ?_⟩
  intro h1 h2 h3
  cases d with
  | mk info images annotations categories sources nii nai nsi =>
    dsimp only at h1 h2 h3
    unfold load_dataset CocoDataset.json CocoDataset.validated
    rw [← h1, ← h2, ← h3]

/-- Witness for C7: the round trip is the identity on a freshly validated
populated aggregate. -/
theorem roundtrip_preserves_serialized_fields_witness :
    load_dataset (CocoDataset.json (CocoDataset.validated
        ⟨⟨1, 0, 0⟩, none, none, none, none⟩ [] [] [⟨1, "One", "1"⟩]
        [⟨1, ⟨"", "a"⟩⟩])) =
      CocoDataset.validated ⟨⟨1, 0, 0⟩, none, none, none, none⟩ [] []
        [⟨1, "One", "1"⟩] [⟨1, ⟨"", "a"⟩⟩] :=
  (roundtrip_preserves_serialized_fields _).2.2.2.2.2.2.2.2 (by decide)
    (by decide) (by decide)

/-! ### C8 — masking a non-intersecting label and a closed reader -/

theorem allRow_zipWith_and : ∀ r1 r2 : List Bool,
    r1.all (fun b => b) = true → r2.all (fun b => b) = true →
    (List.zipWith (fun x y => x && y) r1 r2).all (fun b => b) = true
  | [], _, _, _ => rfl
  | _ :: _, [], _, _ => rfl
  | a :: r1, b :: r2, h1, h2 => by
    simp only [List.all_cons, Bool.and_eq_true] at h1 h2
    simp only [List.zipWith_cons_cons, List.all_cons, Bool.and_eq_true]
    exact ⟨⟨h1.1, h2.1⟩, allRow_zipWith_and r1 r2 h1.2 h2.2⟩

theorem allTrueMask_zipWith : ∀ m1 m2 : List (List Bool),
    allTrueMask m1 = true → allTrueMask m2 = true →
    allTrueMask (List.zipWith
      (fun r1 r2 => List.zipWith (fun x y => x && y) r1 r2) m1 m2) = true
  | [], _, _, _ => rfl
  | _ :: _, [], _, _ => rfl
  | r1 :: m1, r2 :: m2, h1, h2 => by
    simp only [allTrueMask, List.all_cons, Bool.and_eq_true] at h1 h2
    simp only [allTrueMask, List.zipWith_cons_cons, List.all_cons,
      Bool.and_eq_true]
    exact ⟨allRow_zipWith_and r1 r2 h1.1 h2.1,
      allTrueMask_zipWith m1 m2 h1.2 h2.2⟩

theorem allTrueMask_foldl : ∀ (bs : List (List (List Bool)))
    (acc : List (List Bool)), allTrueMask acc = true →
    (∀ b ∈ bs, allTrueMask b = true) →
    allTrueMask (bs.foldl
      (fun acc band => List.zipWith
        (fun r1 r2 => List.zipWith (fun x y => x && y) r1 r2) acc band)
      acc) = true
  | [], _, hacc, _ => hacc
  | b :: bs, acc, hacc, hbs => by
    apply allTrueMask_foldl bs
    · exact allTrueMask_zipWith _ _ hacc (hbs b (by simp))
    · intro x hx
      exact hbs x (by simp [hx])

theorem allFalse_npInvert (m : List (List Bool)) (h : allTrueMask m = true) :
    allFalseMask (npInvert m) = true := by
  unfold allTrueMask at h
  unfold allFalseMask npInvert
  simpa [List.all_map, Function.comp, Bool.not_not] using h

/-- C8 counterexample: the failure raised for a closed raster reader is a
`ValueError` (message "Attempted mask with a closed DatasetReader"), which is
not an `IOError`. -/
theorem mask_label_closed_value_error :
    mask_label true [[[true]]] =
        Except.error
          (PyError.valueError "Attempted mask with a closed DatasetReader")
    ∧ PyError.is_io_error
        (PyError.valueError "Attempted mask with a closed DatasetReader") =
      false :=
  ⟨rfl, rfl⟩

/-- C8 (amended): on a closed raster handle `mask_label` always fails with a
`ValueError` (not an `IOError`); on an open handle it returns the inverted
band-collapsed mask, and when the label does not intersect the tile (every
band fully masked) that result is an all-false 2-D array, not an error. -/
theorem mask_label_spec (mask_bands : List (List (List Bool))) :
    mask_label true mask_bands =
        Except.error
          (PyError.valueError "Attempted mask with a closed DatasetReader")
    ∧ mask_label false mask_bands =
        Except.ok (npInvert (npAllAxis0 mask_bands))
    ∧ (allTrueBands mask_bands = true →
        allFalseMask (npInvert (npAllAxis0 mask_bands)) = true) := by
  refine ⟨rfl, rfl, ?_⟩
  intro h
  cases mask_bands with
  | nil => rfl
  | cons b bs =>
    simp only [allTrueBands, List.all_cons, Bool.and_eq_true] at h
    have hmem : ∀ x ∈ bs, allTrueMask x = true := by
      intro x hx
      have h2 := h.2
      rw [List.all_eq_true] at h2
      exact h2 x hx
    exact allFalse_npInvert _ (allTrueMask_foldl bs b h.1 hmem)

/-- Witness for C8: a fully masked one-band stack yields an all-false mask. -/
theorem mask_label_spec_witness :
    allFalseMask (npInvert (npAllAxis0 [[[true, true], [true, true]]])) =
      true :=
  (mask_label_spec [[[true, true], [true, true]]]).2.2 (by decide)

/-! ### C6 — id assignment for name-only category batches -/

theorem contains_iff_mem_str {l : List String} {a : String} :
    l.contains a = true ↔ a ∈ l := List.elem_iff

/-- Membership in the sorted-unique array is membership in the original. -/
theorem mem_npUniqueStr {l : List String} {a : String} :
    a ∈ npUniqueStr l ↔ a ∈ l := by
  unfold npUniqueStr
  rw [(List.perm_insertionSort strLeR l.dedup).mem_iff, List.mem_dedup]

/-- C6 (amended): when `add_categories` is called with only names, the
proposed batch is first reduced to its distinct values in ascending
lexicographic order; each name absent from the existing table is then
assigned an id contiguously continuing from one plus the maximum id among
existing categories whose names occur in the proposed batch (from 1 when no
proposed name already exists), in ascending name order — not from the
maximum id of the whole table, and not in first-appearance order.  In
particular, with existing categories One=1, Two=2, Five=5 (so the maximum
matched id is 5), proposing ["One","Eight","Two","Five","Five"] appends the
single new entry "Eight" with id 6. -/
theorem add_categories_names_id_assignment (cats : List Category)
    (category_names : List String) :
    add_categories_names cats category_names =
      cats ++ (List.zip
          (npArange (specStartId cats category_names)
            (specStartId cats category_names +
              (specNewNames cats category_names).length) 1)
          (specNewNames cats category_names)).map
        (fun p => { id := p.1, name := p.2, supercategory := "1" })
    ∧ add_categories_names
        [⟨1, "One", "1"⟩, ⟨2, "Two", "1"⟩, ⟨5, "Five", "1"⟩]
        ["One", "Eight", "Two", "Five", "Five"] =
      [⟨1, "One", "1"⟩, ⟨2, "Two", "1"⟩, ⟨5, "Five", "1"⟩,
        ⟨6, "Eight", "1"⟩] := by
  constructor
  · have hA : (npUniqueStr category_names).filter
        (fun n => !(cats.map (fun c => c.name)).contains n) =
        specNewNames cats category_names := by
      unfold npUniqueStr specNewNames
      exact sort_filter_comm _ _
    have hB : (cats.filter (fun c =>
          ((npUniqueStr category_names).filter
            (fun n => (cats.map (fun c => c.name)).contains n)).contains
            c.name)).map (fun c => c.id) =
        (cats.filter (fun c => category_names.contains c.name)).map
          (fun c => c.id) := by
      apply congrArg
      apply List.filter_congr
      intro c hc
      rw [Bool.eq_iff_iff, contains_iff_mem_str, contains_iff_mem_str,
        List.mem_filter, mem_npUniqueStr]
      have hcn : (cats.map (fun c => c.name)).contains c.name = true :=
        contains_iff_mem_str.mpr (List.mem_map_of_mem _ hc)
      constructor
      · rintro ⟨h1, _⟩
        exact h1
      · intro h1
        exact ⟨h1, hcn⟩
    have hstart : maxOr0 ((cats.filter (fun c =>
          ((npUniqueStr category_names).filter
            (fun n => (cats.map (fun c => c.name)).contains n)).contains
            c.name)).map (fun c => c.id)) + 1 =
        specStartId cats category_names := by
      unfold specStartId
      rw [hB]
    simp only [add_categories_names]
    rw [hA, hstart]
    by_cases hemp : (specNewNames cats category_names).isEmpty
    · rw [if_pos hemp, List.isEmpty_iff.mp hemp]
      simp
    · rw [if_neg hemp]
  · decide

/-- C6 counterexample: an existing table with maximum id 5 whose top id
belongs to a name ("Zed") not in the proposal; the claim's premises hold
("One", "Two", "Five" exist, max id is 5, "Eight" is the single new name)
yet "Eight" is assigned id 4 (one past the maximum matched id 3), not 6.
Also, with two new names ["B","A"] the ids follow sorted order, not
first-appearance order. -/
theorem add_categories_names_counterexample :
    add_categories_names
        [⟨1, "One", "1"⟩, ⟨2, "Two", "1"⟩, ⟨3, "Five", "1"⟩, ⟨5, "Zed", "1"⟩]
        ["One", "Eight", "Two", "Five", "Five"] =
      [⟨1, "One", "1"⟩, ⟨2, "Two", "1"⟩, ⟨3, "Five", "1"⟩, ⟨5, "Zed", "1"⟩,
        ⟨4, "Eight", "1"⟩]
    ∧ ¬ add_categories_names
        [⟨1, "One", "1"⟩, ⟨2, "Two", "1"⟩, ⟨3, "Five", "1"⟩, ⟨5, "Zed", "1"⟩]
        ["One", "Eight", "Two", "Five", "Five"] =
      [⟨1, "One", "1"⟩, ⟨2, "Two", "1"⟩, ⟨3, "Five", "1"⟩, ⟨5, "Zed", "1"⟩,
        ⟨6, "Eight", "1"⟩]
    ∧ add_categories_names [] ["B", "A"] = [⟨1, "A", "1"⟩, ⟨2, "B", "1"⟩] := by
  decide
